import Mathlib

/-!
Verification of the data-cleaning routines of the `mounishmesa.github.io`
data-analysis repository, against its natural-language specification.

Python strings are embedded as `List Char` (`PyStr`).  The Python string
methods used by the code (`str.strip`, `str.split()` with no separator,
`str.upper`) are modelled directly below.  The pandas fallback parser
`pd.to_datetime` is third-party library code; it is modelled (restricted to
the ISO `YYYY-MM-DD` inputs the specification discusses) by `parseISODate`,
and the routines that depend on it are additionally stated for an arbitrary
fallback function so that the theorems about the repository's own branching
logic do not depend on the pandas model.
-/

/-- Python strings, embedded as lists of characters. -/
abbrev PyStr := List Char

/-- Python `str.strip()`: remove leading and trailing whitespace. -/
def pyStrip (s : PyStr) : PyStr :=
  ((s.dropWhile Char.isWhitespace).reverse.dropWhile Char.isWhitespace).reverse

/-- Auxiliary worker for `pySplit`; `cur` holds the current word, reversed. -/
def pySplitAux (cur : PyStr) : PyStr → List PyStr
  | [] => if cur.isEmpty then [] else [cur.reverse]
  | c :: cs =>
    if c.isWhitespace then
      if cur.isEmpty then pySplitAux [] cs else cur.reverse :: pySplitAux [] cs
    else
      pySplitAux (c :: cur) cs

/-- Python `str.split()` with no separator: split on runs of whitespace,
discarding empty tokens. -/
def pySplit (s : PyStr) : List PyStr := pySplitAux [] s

/-- Python `str.upper()` (the inputs at hand are ASCII). -/
def pyUpper (s : PyStr) : PyStr := s.map Char.toUpper

/-- The `month_map` dictionary of `parse_ons_date`
(src/projects/cost-of-living/src/02_data_cleaning.py, lines 77-82):
month abbreviations and quarter codes mapped to two-digit month strings. -/
def month_map : List (PyStr × PyStr) :=
  [("JAN".data, "01".data), ("FEB".data, "02".data), ("MAR".data, "03".data),
   ("APR".data, "04".data), ("MAY".data, "05".data), ("JUN".data, "06".data),
   ("JUL".data, "07".data), ("AUG".data, "08".data), ("SEP".data, "09".data),
   ("OCT".data, "10".data), ("NOV".data, "11".data), ("DEC".data, "12".data),
   ("Q1".data, "03".data), ("Q2".data, "06".data),
   ("Q3".data, "09".data), ("Q4".data, "12".data)]

/-- Python `month_str in month_map` followed by `month_map[month_str]`:
dictionary lookup, `none` when the key is absent. -/
def month_lookup (k : PyStr) : Option PyStr :=
  (month_map.find? (fun p => p.1 == k)).map (fun p => p.2)

/-- The f-string `f"{year}-{month_map[month_str]}-01"` of line 85. -/
def mkFirstOfMonth (year mm : PyStr) : PyStr :=
  year ++ "-".data ++ mm ++ "-01".data

/-- `parse_ons_date` (src/projects/cost-of-living/src/02_data_cleaning.py,
lines 68-90), parameterised by the behaviour of the
`pd.to_datetime(date_str).strftime('%Y-%m-%d')` fallback of line 88:
`fallback s = some r` models the call returning the string `r`, and
`fallback s = none` models it raising (which the bare `except` of line 89
turns into `return None`).  The month/quarter dictionary path itself cannot
raise. -/
def parse_ons_date (fallback : PyStr → Option PyStr) (s : PyStr) : Option PyStr :=
  let date_str := pyStrip s
  let parts := pySplit date_str
  if parts.length = 2 then
    let year := parts.headD []
    let month_str := pyUpper ((parts.drop 1).headD [])
    match month_lookup month_str with
    | some mm => some (mkFirstOfMonth year mm)
    | none => fallback date_str
  else
    fallback date_str

/-- The twelve month abbreviations recognised by the specification
("the fixed 12-month abbreviation set"), in calendar order. -/
def monthAbbrevs : List PyStr :=
  ["JAN".data, "FEB".data, "MAR".data, "APR".data, "MAY".data, "JUN".data,
   "JUL".data, "AUG".data, "SEP".data, "OCT".data, "NOV".data, "DEC".data]

/-- The four quarter codes recognised by the specification, in order. -/
def quarterCodes : List PyStr := ["Q1".data, "Q2".data, "Q3".data, "Q4".data]

/-- Decimal digits of a natural number. -/
def natDigits (n : Nat) : PyStr := Nat.toDigits 10 n

/-- Left-pad with '0' to width `k` (the behaviour of `%m`/`%d`/`%Y`). -/
def padZeros (k : Nat) (l : PyStr) : PyStr := List.replicate (k - l.length) '0' ++ l

/-- A month or day number as a two-digit string ("03", "12"). -/
def twoDigit (n : Nat) : PyStr := padZeros 2 (natDigits n)

/-- A calendar date (year, month, day). -/
structure DateYMD where
  year : Nat
  month : Nat
  day : Nat
deriving DecidableEq, Repr

/-- Numeric value of a decimal digit character, `none` otherwise. -/
def digitVal (c : Char) : Option Nat :=
  if c = '0' then some 0 else if c = '1' then some 1 else if c = '2' then some 2
  else if c = '3' then some 3 else if c = '4' then some 4 else if c = '5' then some 5
  else if c = '6' then some 6 else if c = '7' then some 7 else if c = '8' then some 8
  else if c = '9' then some 9 else none

/-- Gregorian leap-year rule. -/
def isLeap (y : Nat) : Bool := (y % 4 == 0 && y % 100 != 0) || (y % 400 == 0)

/-- Number of days in a month of a given year. -/
def daysInMonth (y m : Nat) : Nat :=
  if m = 2 then (if isLeap y then 29 else 28)
  else if m = 4 ∨ m = 6 ∨ m = 9 ∨ m = 11 then 30
  else 31

/-- Modelled from the spec: the "generic calendar-string parsing" fallback of
the normalizer is `pd.to_datetime` from the pandas library — third-party code
not part of this repository.  It is modelled here restricted to the ISO
`YYYY-MM-DD` strings that the specification's fallback scenarios use: exactly
ten characters, digits with dashes at positions 5 and 8, and a valid calendar
month/day.  On such strings pandas parses the written year, month and day. -/
def parseISODate (s : PyStr) : Option DateYMD :=
  match s with
  | [y1, y2, y3, y4, h1, m1, m2, h2, d1, d2] =>
    if h1 = '-' ∧ h2 = '-' then
      match digitVal y1, digitVal y2, digitVal y3, digitVal y4,
            digitVal m1, digitVal m2, digitVal d1, digitVal d2 with
      | some a, some b, some c, some d, some e, some f, some g, some h =>
        let y := a * 1000 + b * 100 + c * 10 + d
        let mo := e * 10 + f
        let dd := g * 10 + h
        if 1 ≤ mo ∧ mo ≤ 12 ∧ 1 ≤ dd ∧ dd ≤ daysInMonth y mo then
          some ⟨y, mo, dd⟩
        else none
      | _, _, _, _, _, _, _, _ => none
    else none
  | _ => none

/-- `datetime.strftime('%Y-%m-%d')`: render a date back to ISO form. -/
def strftimeYMD (d : DateYMD) : PyStr :=
  padZeros 4 (natDigits d.year) ++ "-".data ++ twoDigit d.month
    ++ "-".data ++ twoDigit d.day

/-- The whole fallback expression of line 88,
`pd.to_datetime(date_str).strftime('%Y-%m-%d')`, with a raise modelled as
`none` (caught by the bare `except` of line 89). -/
def pd_to_datetime_iso (s : PyStr) : Option PyStr :=
  (parseISODate s).map strftimeYMD

/-- `parse_ons_date` with its concrete pandas fallback model. -/
def parse_ons_date_iso : PyStr → Option PyStr := parse_ons_date pd_to_datetime_iso

/-- The date-handling kernel of `clean_ons_timeseries`
(src/projects/cost-of-living/src/02_data_cleaning.py):
line 64 strips each raw date string, line 92 applies `parse_ons_date` to it,
and line 93 (`dropna(subset=['date_clean'])`) drops the rows where the parse
returned `None`.  A row is modelled by its date string; the result pairs each
surviving row's (stripped) date with its cleaned date. -/
def clean_dates (fallback : PyStr → Option PyStr) (dates : List PyStr) :
    List (PyStr × PyStr) :=
  let withClean := dates.map (fun d => (pyStrip d, parse_ons_date fallback (pyStrip d)))
  withClean.filterMap (fun p => p.2.map (fun c => (p.1, c)))

/-- Outcome of the `requests.get` call in `download_file`
(src/projects/cost-of-living/src/01_download_data.py, lines 26-48): either a
received HTTP response with its status code, or a raised connection error, or
a raised timeout. -/
inductive HttpOutcome where
  | response (status : Nat)
  | connectionError
  | timeout
deriving DecidableEq, Repr

/-- `requests.Response.raise_for_status()`: raises exactly for client-error
(4xx) and server-error (5xx) status codes. -/
def raise_for_status (status : Nat) : Bool := 400 ≤ status && status < 600

/-- `download_file` (01_download_data.py, lines 26-48): the try block performs
the GET, calls `raise_for_status`, writes the file and returns `True`; any
exception is caught by the `except` of line 46, which logs and returns
`False`. -/
def download_file (o : HttpOutcome) : Bool :=
  match o with
  | .response status => if raise_for_status status then false else true
  | .connectionError => false
  | .timeout => false

/-- The claim's failure notion, following its words: "network error, non-2xx
status, timeout". -/
def claimedDownloadFailure (o : HttpOutcome) : Bool :=
  match o with
  | .response status => !(200 ≤ status && status < 300)
  | .connectionError => true
  | .timeout => true

/-- The outcomes on which the `requests` call in the try block actually
raises: connection errors, timeouts, and 4xx/5xx statuses
(via `raise_for_status`). -/
def raisingDownloadFailure (o : HttpOutcome) : Bool :=
  match o with
  | .response status => raise_for_status status
  | .connectionError => true
  | .timeout => true

/-- `download_ons_datasets` (01_download_data.py, lines 96-102): calls
`download_file` for each dataset, counts successes, and returns
`success_count > 0`. -/
def download_ons_datasets (outcomes : List HttpOutcome) : Bool :=
  decide (outcomes.countP (fun o => download_file o) > 0)

/-- The three top-level steps of `main` (01_download_data.py, lines 352-362). -/
inductive PipelineStep where
  | downloadOnsDatasets
  | processOnsDownloads
  | createComprehensiveSampleData
deriving DecidableEq, Repr

/-- `main` (01_download_data.py, lines 352-362), as the sequence of steps it
executes given the outcomes of the attempted downloads: it is straight-line
code, so the sample-data step runs whatever `download_ons_datasets`
returned. -/
def download_main_trace (outcomes : List HttpOutcome) : List PipelineStep :=
  let _ons_success := download_ons_datasets outcomes
  [PipelineStep.downloadOnsDatasets, PipelineStep.processOnsDownloads,
   PipelineStep.createComprehensiveSampleData]

/-- A row of the housing dashboard's in-memory table
(src/projects/uk-housing-market/app.py): the columns used by the filters and
the tabular display. -/
structure HRow where
  date_of_transfer : PyStr
  postcode : PyStr
  district : PyStr
  property_type_name : PyStr
  year : Nat
  price : Nat
deriving DecidableEq, Repr

/-- `filtered_df` (app.py, lines 147-153): the conjunction of the four
boolean masks — year membership, borough membership, property-type
membership, and the inclusive price range. -/
def filtered_df (df : List HRow) (selected_years : List Nat)
    (selected_boroughs selected_types : List PyStr)
    (price_range : Nat × Nat) : List HRow :=
  df.filter (fun r =>
    selected_years.contains r.year &&
    selected_boroughs.contains r.district &&
    selected_types.contains r.property_type_name &&
    decide (price_range.1 ≤ r.price) &&
    decide (r.price ≤ price_range.2))

/-- One CSV line of `DataFrame.to_csv`: the row's fields joined by commas. -/
def row_to_csv (r : HRow) : PyStr :=
  r.date_of_transfer ++ ",".data ++ r.postcode ++ ",".data ++ r.district
    ++ ",".data ++ r.property_type_name ++ ",".data ++ natDigits r.year
    ++ ",".data ++ natDigits r.price

/-- The CSV header line. -/
def csv_header : PyStr :=
  "date_of_transfer,postcode,district,property_type_name,year,price".data

/-- `DataFrame.to_csv(index=False)`: header line followed by one line per
row, in order. -/
def to_csv (df : List HRow) : List PyStr := csv_header :: df.map row_to_csv

/-- The `data` argument of the filtered-data `st.download_button`
(app.py, lines 357-362): `filtered_df.to_csv(index=False)`. -/
def download_button_data (df : List HRow) (selected_years : List Nat)
    (selected_boroughs selected_types : List PyStr)
    (price_range : Nat × Nat) : List PyStr :=
  to_csv (filtered_df df selected_years selected_boroughs selected_types price_range)

/-- A raw row of the housing Price Paid data as read from CSV
(src/projects/uk-housing-market/src/02_data_cleaning.py): nullable columns
are `Option`. -/
structure RawRow where
  transaction_id : PyStr
  price : Option Int
  date_of_transfer : Option PyStr
  postcode : Option PyStr
  district : Option PyStr
  property_type : Option PyStr
deriving DecidableEq, Repr

/-- A housing row after step 2 of `clean_data` replaced the
`date_of_transfer` string column by parsed datetimes (`NaT` = `none`). -/
structure TxRow where
  transaction_id : PyStr
  price : Option Int
  date_of_transfer : Option DateYMD
  postcode : Option PyStr
  district : Option PyStr
  property_type : Option PyStr
deriving DecidableEq, Repr

/-- Worker for `drop_duplicates`: keep the first row carrying each
`transaction_id`. -/
def drop_duplicates_aux (seen : List PyStr) : List RawRow → List RawRow
  | [] => []
  | r :: rs =>
    if r.transaction_id ∈ seen then drop_duplicates_aux seen rs
    else r :: drop_duplicates_aux (r.transaction_id :: seen) rs

/-- `df.drop_duplicates(subset=['transaction_id'])` (line 105): keep the
first occurrence of each transaction id. -/
def drop_duplicates (rows : List RawRow) : List RawRow := drop_duplicates_aux [] rows

/-- Step 2 of `clean_data` (line 109):
`pd.to_datetime(df['date_of_transfer'], errors='coerce')`, parameterised by
the per-string datetime parse `coerce`; a null stays null (`NaT`). -/
def coerce_dates (coerce : PyStr → Option DateYMD) (r : RawRow) : TxRow :=
  { transaction_id := r.transaction_id, price := r.price,
    date_of_transfer := r.date_of_transfer.bind coerce,
    postcode := r.postcode, district := r.district,
    property_type := r.property_type }

/-- `clean_data` (src/projects/uk-housing-market/src/02_data_cleaning.py,
lines 98-150), steps 1-5.  Steps 6-10 of the source only add derived columns
(year, month, quarter, year_month, property_type_name, region,
postcode_district, price_band) and do not change the columns modelled here. -/
def clean_data (coerce : PyStr → Option DateYMD) (rows : List RawRow) : List TxRow :=
  -- 1. drop_duplicates(subset=['transaction_id'])
  let df1 := drop_duplicates rows
  -- 2. pd.to_datetime(df['date_of_transfer'], errors='coerce')
  let df2 := df1.map (coerce_dates coerce)
  -- 3. dropna(subset=['price', 'date_of_transfer', 'postcode', 'district'])
  let df3 := df2.filter (fun r =>
    r.price.isSome && r.date_of_transfer.isSome &&
    r.postcode.isSome && r.district.isSome)
  -- 4. (df['price'] >= 10000) & (df['price'] <= 50000000); a NaN price
  --    compares false
  let df4 := df3.filter (fun r =>
    match r.price with
    | some p => decide (10000 ≤ p) && decide (p ≤ 50000000)
    | none => false)
  -- 5. df['district'].str.upper().str.strip()
  let df5 := df4.map (fun r =>
    { r with district := r.district.map (fun d => pyStrip (pyUpper d)) })
  df5

/-- Sample raw housing row used to exercise `clean_data` concretely. -/
def sampleRawRow : RawRow :=
  { transaction_id := "A1".data, price := some 250000,
    date_of_transfer := some ("2019-05-01".data),
    postcode := some ("SW1A 1AA".data), district := some ("camden".data),
    property_type := some ("T".data) }

/-- The row `clean_data` produces from `sampleRawRow`. -/
def sampleTxRow : TxRow :=
  { transaction_id := "A1".data, price := some 250000,
    date_of_transfer := some ⟨2019, 5, 1⟩,
    postcode := some ("SW1A 1AA".data), district := some ("CAMDEN".data),
    property_type := some ("T".data) }

/-! ## Theorems -/

/-- Shared lemma: on an input whose stripped form splits into exactly two
tokens with the second token's uppercase form in `month_map`, `parse_ons_date`
takes the dictionary path and returns `"<first>-<mm>-01>"`, for any
fallback. -/
theorem parse_ons_date_two_token (fb : PyStr → Option PyStr) (s y t mm : PyStr)
    (hsplit : pySplit (pyStrip s) = [y, t])
    (hm : month_lookup (pyUpper t) = some mm) :
    parse_ons_date fb s = some (mkFirstOfMonth y mm) := by
  simp [parse_ons_date, hsplit, hm]

/-- Shared lemma: when no two-token dictionary lookup applies (either the
stripped input does not split into two tokens, or the second token is not in
`month_map`), `parse_ons_date` is the fallback applied to the stripped
input. -/
theorem parse_ons_date_fallback_eq (fb : PyStr → Option PyStr) (s : PyStr)
    (h : ∀ y t, pySplit (pyStrip s) = [y, t] → month_lookup (pyUpper t) = none) :
    parse_ons_date fb s = fb (pyStrip s) := by
  rcases hp : pySplit (pyStrip s) with _ | ⟨a, _ | ⟨b, _ | ⟨c, l⟩⟩⟩
  · simp [parse_ons_date, hp]
  · simp [parse_ons_date, hp]
  · have hm := h a b hp
    simp [parse_ons_date, hp, hm]
  · simp [parse_ons_date, hp]

/-- Shared lemma: a token count other than two makes the dictionary-path
condition vacuous. -/
theorem month_lookup_vacuous (s : PyStr)
    (h : (pySplit (pyStrip s)).length ≠ 2) :
    ∀ y t, pySplit (pyStrip s) = [y, t] → month_lookup (pyUpper t) = none :=
  fun _ _ he => absurd (congrArg List.length he) h

/-- C1: for every input of the form `"<year> <MON>"` — two
whitespace-separated tokens whose second token is, up to letter case, the
`n`-th of the twelve month abbreviations JAN..DEC — `parse_ons_date` returns
the canonical first-of-month date string `"<year>-<mm>-01"` with `mm` the
two-digit form of month `n+1`, regardless of the fallback parser. -/
theorem parse_ons_date_year_month (fb : PyStr → Option PyStr)
    (s y t : PyStr) (n : Fin 12)
    (hsplit : pySplit (pyStrip s) = [y, t])
    (hmon : pyUpper t = monthAbbrevs.get n) :
    parse_ons_date fb s = some (mkFirstOfMonth y (twoDigit (n.val + 1))) := by
  apply parse_ons_date_two_token fb s y t _ hsplit
  rw [hmon]
  fin_cases n <;> decide

/-- C1 witness: `"2023 MAR"` parses to `"2023-03-01"`. -/
theorem parse_ons_date_year_month_witness :
    parse_ons_date (fun _ => none) ("2023 MAR".data) = some ("2023-03-01".data) := by
  have h := parse_ons_date_year_month (fun _ => none) ("2023 MAR".data)
    ("2023".data) ("MAR".data) (2 : Fin 12) (by decide) (by decide)
  exact h.trans (by decide)

/-- C2: for every input of the form `"<year> Q<n>"` with `n` in 1..4 (the
`n`-th quarter code, up to letter case), `parse_ons_date` returns the first
day of the quarter's final month: `"<year>-<mm>-01"` with `mm` the two-digit
form of `3 * n`, regardless of the fallback parser. -/
theorem parse_ons_date_quarter (fb : PyStr → Option PyStr)
    (s y t : PyStr) (n : Fin 4)
    (hsplit : pySplit (pyStrip s) = [y, t])
    (hq : pyUpper t = quarterCodes.get n) :
    parse_ons_date fb s = some (mkFirstOfMonth y (twoDigit (3 * (n.val + 1)))) := by
  apply parse_ons_date_two_token fb s y t _ hsplit
  rw [hq]
  fin_cases n <;> decide

/-- C2 witness: `"2023 Q2"` parses to `"2023-06-01"`. -/
theorem parse_ons_date_quarter_witness :
    parse_ons_date (fun _ => none) ("2023 Q2".data) = some ("2023-06-01".data) := by
  have h := parse_ons_date_quarter (fun _ => none) ("2023 Q2".data)
    ("2023".data) ("Q2".data) (1 : Fin 4) (by decide) (by decide)
  exact h.trans (by decide)

/-- C7: the two-token dictionary path never validates the year token — for
any first token `y` whatsoever, if the second token's uppercase form is in
`month_map` with value `mm`, the routine returns `"<y>-<mm>-01"` even when
`y` is not a number. -/
theorem parse_ons_date_no_year_validation (fb : PyStr → Option PyStr)
    (s y t mm : PyStr)
    (hsplit : pySplit (pyStrip s) = [y, t])
    (hm : month_lookup (pyUpper t) = some mm) :
    parse_ons_date fb s = some (mkFirstOfMonth y mm) :=
  parse_ons_date_two_token fb s y t mm hsplit hm

/-- C7 witness: `"garbage JAN"` yields `"garbage-01-01"`, not the failure
signal. -/
theorem parse_ons_date_no_year_validation_witness :
    parse_ons_date (fun _ => none) ("garbage JAN".data)
      = some ("garbage-01-01".data) := by
  have h := parse_ons_date_no_year_validation (fun _ => none) ("garbage JAN".data)
    ("garbage".data) ("JAN".data) ("01".data) (by decide) (by decide)
  exact h.trans (by decide)

/-- C3: an input that matches no recognized pattern — no two-token
month/quarter form, and not parseable as a calendar date string — makes
`parse_ons_date` return the failure signal `none` (the bare `except`
converts the parse fault into `None` instead of propagating it). -/
theorem parse_ons_date_unrecognized (s : PyStr)
    (h1 : ∀ y t, pySplit (pyStrip s) = [y, t] → month_lookup (pyUpper t) = none)
    (h2 : parseISODate (pyStrip s) = none) :
    parse_ons_date_iso s = none := by
  unfold parse_ons_date_iso
  rw [parse_ons_date_fallback_eq _ _ h1]
  simp [pd_to_datetime_iso, h2]

/-- C3 witness: `"not a date"` yields the failure signal. -/
theorem parse_ons_date_unrecognized_witness :
    parse_ons_date_iso ("not a date".data) = none :=
  parse_ons_date_unrecognized ("not a date".data)
    (month_lookup_vacuous _ (by decide)) (by decide)

/-- C4: an input that does not take the two-token month/quarter lookup path
but is parseable as a standard calendar date string is returned with its
original day-of-month preserved: the output is the `strftime` rendering of
the parsed date `dt`, whose day component is `dt.day`, not 1. -/
theorem parse_ons_date_fallback_preserves_day (s : PyStr) (dt : DateYMD)
    (h1 : ∀ y t, pySplit (pyStrip s) = [y, t] → month_lookup (pyUpper t) = none)
    (h2 : parseISODate (pyStrip s) = some dt) :
    parse_ons_date_iso s = some (strftimeYMD dt) := by
  unfold parse_ons_date_iso
  rw [parse_ons_date_fallback_eq _ _ h1]
  simp [pd_to_datetime_iso, h2]

/-- C4 witness: `"2023-07-15"` comes back as `"2023-07-15"` — the day 15 is
kept, not forced to 1. -/
theorem parse_ons_date_fallback_preserves_day_witness :
    parse_ons_date_iso ("2023-07-15".data) = some ("2023-07-15".data) := by
  have h := parse_ons_date_fallback_preserves_day ("2023-07-15".data)
    ⟨2023, 7, 15⟩ (month_lookup_vacuous _ (by decide)) (by decide)
  exact h.trans (by decide)

/-- Shared lemma: `dropWhile` is the identity when no element satisfies the
predicate. -/
theorem dropWhile_eq_self_of_none (p : Char → Bool) (l : PyStr)
    (h : ∀ x ∈ l, p x = false) : l.dropWhile p = l := by
  cases l with
  | nil => rfl
  | cons a l => rw [List.dropWhile_cons, h a (List.mem_cons_self a l)]; simp

/-- Shared lemma: stripping a whitespace-free string is the identity. -/
theorem pyStrip_eq_self (l : PyStr) (h : ∀ x ∈ l, x.isWhitespace = false) :
    pyStrip l = l := by
  unfold pyStrip
  rw [dropWhile_eq_self_of_none _ _ h]
  rw [dropWhile_eq_self_of_none _ _ (fun x hx => h x (List.mem_reverse.mp hx))]
  exact List.reverse_reverse l

/-- Shared lemma: `pySplitAux` on a whitespace-free string accumulates it
into a single token. -/
theorem pySplitAux_no_ws (l : PyStr)
    (h : ∀ x ∈ l, x.isWhitespace = false) (cur : PyStr) :
    pySplitAux cur l
      = if cur.isEmpty && l.isEmpty then [] else [cur.reverse ++ l] := by
  induction l generalizing cur with
  | nil => simp [pySplitAux]
  | cons a l ih =>
    have ha : a.isWhitespace = false := h a (List.mem_cons_self a l)
    rw [pySplitAux, ha]
    rw [ih (fun x hx => h x (List.mem_cons_of_mem a hx)) (a :: cur)]
    simp

/-- Shared lemma: a nonempty whitespace-free string splits into exactly
itself. -/
theorem pySplit_single (l : PyStr) (hne : l ≠ [])
    (h : ∀ x ∈ l, x.isWhitespace = false) : pySplit l = [l] := by
  unfold pySplit
  rw [pySplitAux_no_ws l h []]
  simp [hne]

/-- Shared lemma: a character with a digit value is not whitespace. -/
theorem digitVal_not_ws (c : Char) (n : Nat) (h : digitVal c = some n) :
    c.isWhitespace = false := by
  unfold digitVal at h
  split_ifs at h with h0 h1 h2 h3 h4 h5 h6 h7 h8 h9
  · subst h0; decide
  · subst h1; decide
  · subst h2; decide
  · subst h3; decide
  · subst h4; decide
  · subst h5; decide
  · subst h6; decide
  · subst h7; decide
  · subst h8; decide
  · subst h9; decide

/-- Shared lemma: a string accepted by `parseISODate` is nonempty and
whitespace-free (ten characters, each a digit or a dash). -/
theorem parseISODate_no_ws (c : PyStr) (dt : DateYMD)
    (h : parseISODate c = some dt) :
    c ≠ [] ∧ ∀ x ∈ c, x.isWhitespace = false := by
  rcases c with _ | ⟨a0, _ | ⟨a1, _ | ⟨a2, _ | ⟨a3, _ | ⟨a4, _ | ⟨a5, _ | ⟨a6, _ | ⟨a7, _ | ⟨a8, _ | ⟨a9, _ | ⟨a10, rest⟩⟩⟩⟩⟩⟩⟩⟩⟩⟩⟩
  all_goals try exact Option.noConfusion h
  refine ⟨by simp, ?_⟩
  simp only [parseISODate] at h
  split at h
  all_goals try exact Option.noConfusion h
  rename_i hd
  split at h
  all_goals try exact Option.noConfusion h
  rename_i e0 e1 e2 e3 e4 e5 e6 e7
  intro x hx
  simp only [List.mem_cons, List.not_mem_nil, or_false] at hx
  rcases hx with rfl | rfl | rfl | rfl | rfl | rfl | rfl | rfl | rfl | rfl
  · exact digitVal_not_ws _ _ e0
  · exact digitVal_not_ws _ _ e1
  · exact digitVal_not_ws _ _ e2
  · exact digitVal_not_ws _ _ e3
  · rw [hd.1]; decide
  · exact digitVal_not_ws _ _ e4
  · exact digitVal_not_ws _ _ e5
  · rw [hd.2]; decide
  · exact digitVal_not_ws _ _ e6
  · exact digitVal_not_ws _ _ e7

/-- C6: `parse_ons_date` is idempotent on canonical date strings — whenever
it succeeds on `s` with a canonical output `c` (a string that parses as a
calendar date and is that date's canonical rendering), re-running it on `c`
returns the same result. -/
theorem parse_ons_date_idempotent (s c : PyStr) (dt : DateYMD)
    (hs : parse_ons_date_iso s = some c)
    (hc : parseISODate c = some dt) (hr : strftimeYMD dt = c) :
    parse_ons_date_iso c = parse_ons_date_iso s := by
  obtain ⟨hne, hws⟩ := parseISODate_no_ws c dt hc
  have hstrip : pyStrip c = c := pyStrip_eq_self c hws
  have hsplit : pySplit (pyStrip c) = [c] := by
    rw [hstrip]; exact pySplit_single c hne hws
  have hlen : (pySplit (pyStrip c)).length ≠ 2 := by rw [hsplit]; simp
  rw [hs]
  unfold parse_ons_date_iso
  rw [parse_ons_date_fallback_eq _ _ (month_lookup_vacuous c hlen)]
  rw [hstrip]
  unfold pd_to_datetime_iso
  rw [hc]
  simp [hr]

/-- C6 witness: on `" 2024-01-01 "` the normalizer returns the canonical
`"2024-01-01"`, and re-running it on that output returns the same date. -/
theorem parse_ons_date_idempotent_witness :
    parse_ons_date_iso ("2024-01-01".data)
      = parse_ons_date_iso (" 2024-01-01 ".data) :=
  parse_ons_date_idempotent (" 2024-01-01 ".data) ("2024-01-01".data)
    ⟨2024, 1, 1⟩ (by decide) (by decide) (by decide)

/-- C5: the fixed order of the paths.  (i) A two-token input whose second
token is in the month/quarter table takes the table path, with the table's
value, for every fallback parser — the fallback is not consulted.
(ii) When the table lookup does not apply (not two tokens, or unknown
token), the result is exactly the fallback applied to the stripped input.
(iii) `clean_ons_timeseries` keeps, in order, exactly the records whose date
parses, pairing each with its cleaned date, and drops the records whose
parse failed — one record's failure does not disturb the rest of the
batch. -/
theorem parse_ons_date_policy (fb : PyStr → Option PyStr) (s : PyStr)
    (dates : List PyStr) :
    (∀ y t mm, pySplit (pyStrip s) = [y, t] →
        month_lookup (pyUpper t) = some mm →
        parse_ons_date fb s = some (mkFirstOfMonth y mm)) ∧
    ((∀ y t, pySplit (pyStrip s) = [y, t] → month_lookup (pyUpper t) = none) →
        parse_ons_date fb s = fb (pyStrip s)) ∧
    clean_dates fb dates
      = dates.filterMap
          (fun d => (parse_ons_date fb (pyStrip d)).map (fun c => (pyStrip d, c))) ∧
    (∀ d ∈ dates, parse_ons_date fb (pyStrip d) = none →
        pyStrip d ∉ (clean_dates fb dates).map Prod.fst) ∧
    (∀ d ∈ dates, ∀ c, parse_ons_date fb (pyStrip d) = some c →
        (pyStrip d, c) ∈ clean_dates fb dates) := by
  have heq : clean_dates fb dates
      = dates.filterMap
          (fun d => (parse_ons_date fb (pyStrip d)).map (fun c => (pyStrip d, c))) := by
    unfold clean_dates
    rw [List.filterMap_map]
    rfl
  refine ⟨fun y t mm h1 h2 => parse_ons_date_two_token fb s y t mm h1 h2,
          fun h => parse_ons_date_fallback_eq fb s h, heq, ?_, ?_⟩
  · intro d _ hnone hmem
    rw [heq] at hmem
    rcases List.mem_map.mp hmem with ⟨p, hp, hfst⟩
    rcases List.mem_filterMap.mp hp with ⟨e, _, hmap⟩
    rcases Option.map_eq_some'.mp hmap with ⟨c, hc, hpc⟩
    rw [← hpc] at hfst
    simp only at hfst
    rw [hfst] at hc
    rw [hnone] at hc
    exact Option.noConfusion hc
  · intro d hd c hc
    rw [heq]
    exact List.mem_filterMap.mpr ⟨d, hd, by rw [hc]; rfl⟩

/-- C5 witness: `"1988 Q1"` resolves through the table (`1988-03-01`) with a
fallback that always fails, and in a two-record batch the unparseable record
is dropped while the other is kept. -/
theorem parse_ons_date_policy_witness :
    parse_ons_date (fun _ => none) ("1988 Q1".data) = some ("1988-03-01".data) ∧
    clean_dates (fun _ => none) ["1988 Q1".data, "bad".data]
      = [("1988 Q1".data, "1988-03-01".data)] := by
  have h := parse_ons_date_policy (fun _ => none) ("1988 Q1".data)
    ["1988 Q1".data, "bad".data]
  refine ⟨?_, ?_⟩
  · exact (h.1 ("1988".data) ("Q1".data) ("03".data) (by decide) (by decide)).trans
      (by decide)
  · rw [h.2.2.1]; decide

/-- C8 counterexample: the claim as stated says any non-2xx status makes
`download_file` return `False`, but `raise_for_status` raises only for
4xx/5xx statuses, so a 304 response — a non-2xx status — is written out and
reported as success (`True`). -/
theorem download_file_non2xx_counterexample :
    claimedDownloadFailure (HttpOutcome.response 304) = true ∧
    download_file (HttpOutcome.response 304) = true := by decide

/-- C8 (amended): whenever the download raises — a connection error, a
timeout, or a 4xx/5xx status (the statuses `raise_for_status` raises on) —
`download_file` catches the exception and returns `False` instead of
propagating; and `main` is straight-line, so the
`create_comprehensive_sample_data` step is executed afterwards whatever the
download outcomes were. -/
theorem download_file_failure_returns_false (o : HttpOutcome)
    (outcomes : List HttpOutcome)
    (h : raisingDownloadFailure o = true) :
    download_file o = false ∧
    PipelineStep.createComprehensiveSampleData ∈ download_main_trace outcomes := by
  constructor
  · cases o with
    | response status =>
      simp only [raisingDownloadFailure] at h
      simp [download_file, h]
    | connectionError => rfl
    | timeout => rfl
  · simp [download_main_trace]

/-- C8 witness: a connection error yields `False`, and the sample-data step
is still executed in a run where that was the only outcome. -/
theorem download_file_failure_returns_false_witness :
    download_file HttpOutcome.connectionError = false ∧
    PipelineStep.createComprehensiveSampleData
      ∈ download_main_trace [HttpOutcome.connectionError] :=
  download_file_failure_returns_false HttpOutcome.connectionError
    [HttpOutcome.connectionError] (by decide)

/-- C9: membership in the dashboard's filtered table is exactly the
conjunction of the four filter predicates (year selected, borough selected,
property type selected, price within the inclusive range) over rows of the
in-memory table, and the CSV download action serializes exactly that
filtered view — header plus one line per filtered row, in order. -/
theorem filtered_df_spec (df : List HRow) (selected_years : List Nat)
    (selected_boroughs selected_types : List PyStr) (price_range : Nat × Nat)
    (r : HRow) :
    (r ∈ filtered_df df selected_years selected_boroughs selected_types price_range ↔
      r ∈ df ∧ r.year ∈ selected_years ∧ r.district ∈ selected_boroughs ∧
        r.property_type_name ∈ selected_types ∧
        price_range.1 ≤ r.price ∧ r.price ≤ price_range.2) ∧
    download_button_data df selected_years selected_boroughs selected_types price_range
      = csv_header
          :: (filtered_df df selected_years selected_boroughs selected_types
                price_range).map row_to_csv := by
  constructor
  · simp [filtered_df, List.mem_filter, List.elem_iff, and_assoc]
  · rfl

/-- Shared lemma: `drop_duplicates_aux` yields rows with pairwise-distinct
transaction ids, none of which was already seen. -/
theorem drop_duplicates_aux_spec (rows : List RawRow) (seen : List PyStr) :
    ((drop_duplicates_aux seen rows).map (fun r => r.transaction_id)).Nodup ∧
    ∀ i ∈ (drop_duplicates_aux seen rows).map (fun r => r.transaction_id),
      i ∉ seen := by
  induction rows generalizing seen with
  | nil => simp [drop_duplicates_aux]
  | cons r rs ih =>
    simp only [drop_duplicates_aux]
    by_cases hmem : r.transaction_id ∈ seen
    · rw [if_pos hmem]
      exact ih seen
    · rw [if_neg hmem]
      obtain ⟨h1, h2⟩ := ih (r.transaction_id :: seen)
      refine ⟨?_, ?_⟩
      · rw [List.map_cons, List.nodup_cons]
        exact ⟨fun hmem2 => (h2 _ hmem2) (List.mem_cons_self _ _), h1⟩
      · intro i hi
        rw [List.map_cons, List.mem_cons] at hi
        rcases hi with rfl | hi
        · exact hmem
        · exact fun hseen => (h2 i hi) (List.mem_cons_of_mem _ hseen)

/-- Shared lemma: the transaction ids of `clean_data`'s output are pairwise
distinct — deduplication happens first and every later step only filters
rows or rewrites non-id columns. -/
theorem clean_data_ids_nodup (coerce : PyStr → Option DateYMD)
    (rows : List RawRow) :
    ((clean_data coerce rows).map (fun r => r.transaction_id)).Nodup := by
  have base : ((drop_duplicates rows).map
      (fun r : RawRow => r.transaction_id)).Nodup :=
    (drop_duplicates_aux_spec rows []).1
  have base2 : (((drop_duplicates rows).map (coerce_dates coerce)).map
      (fun r : TxRow => r.transaction_id)).Nodup := by
    rw [List.map_map]; exact base
  have gen : ∀ (l : List TxRow) (p q : TxRow → Bool) (f : TxRow → TxRow),
      (∀ x, (f x).transaction_id = x.transaction_id) →
      (l.map (fun x => x.transaction_id)).Nodup →
      ((((l.filter p).filter q).map f).map (fun x => x.transaction_id)).Nodup := by
    intro l p q f hf h
    rw [List.map_map]
    have hcomp : ((fun x : TxRow => x.transaction_id) ∘ f)
        = fun x : TxRow => x.transaction_id := funext hf
    rw [hcomp]
    exact h.sublist (((List.filter_sublist _).trans (List.filter_sublist _)).map _)
  simp only [clean_data]
  exact gen _ _ _ _ (fun x => rfl) base2

/-- Shared lemma: in a list of rows with pairwise-distinct transaction ids,
the number of rows bearing a member's transaction id is exactly one. -/
theorem countP_id_eq_one (l : List TxRow) (r : TxRow)
    (h : (l.map (fun x => x.transaction_id)).Nodup) (hm : r ∈ l) :
    l.countP (fun x => x.transaction_id == r.transaction_id) = 1 := by
  induction l with
  | nil => cases hm
  | cons a l ih =>
    rw [List.map_cons, List.nodup_cons] at h
    obtain ⟨hna, hnd⟩ := h
    rcases List.mem_cons.mp hm with rfl | hm2
    · rw [List.countP_cons_of_pos _ _ (by simp)]
      have hz : l.countP (fun x => x.transaction_id == r.transaction_id) = 0 := by
        rw [List.countP_eq_zero]
        intro x hx hbeq
        have hxa : x.transaction_id = r.transaction_id := eq_of_beq hbeq
        exact hna (hxa ▸ List.mem_map_of_mem _ hx)
      rw [hz]
    · rw [List.countP_cons_of_neg]
      · exact ih hnd hm2
      · intro hbeq
        have har : a.transaction_id = r.transaction_id := eq_of_beq hbeq
        exact hna (har ▸ List.mem_map_of_mem _ hm2)

/-- C10: every row of the dataframe returned by the housing `clean_data` has
a non-null price lying between 10000 and 50000000 inclusive, non-null
transfer date, postcode and district, and a transaction id that occurs on
exactly one row of the output. -/
theorem clean_data_invariants (coerce : PyStr → Option DateYMD)
    (rows : List RawRow) (r : TxRow)
    (hmem : r ∈ clean_data coerce rows) :
    (∃ p, r.price = some p ∧ 10000 ≤ p ∧ p ≤ 50000000) ∧
    r.date_of_transfer.isSome = true ∧
    r.postcode.isSome = true ∧
    r.district.isSome = true ∧
    (clean_data coerce rows).countP
        (fun x => x.transaction_id == r.transaction_id) = 1 := by
  have hcount :=
    countP_id_eq_one (clean_data coerce rows) r (clean_data_ids_nodup coerce rows) hmem
  simp only [clean_data] at hmem
  rcases List.mem_map.mp hmem with ⟨r4, hr4, rfl⟩
  obtain ⟨hr3, hprice⟩ := List.mem_filter.mp hr4
  obtain ⟨_, hnulls⟩ := List.mem_filter.mp hr3
  simp only [Bool.and_eq_true] at hnulls
  obtain ⟨⟨⟨_, hd⟩, hpc⟩, hdist⟩ := hnulls
  refine ⟨?_, hd, hpc, ?_, hcount⟩
  · rcases hpv : r4.price with _ | p
    · rw [hpv] at hprice
      exact Bool.noConfusion hprice
    · rw [hpv] at hprice
      simp only [Bool.and_eq_true, decide_eq_true_eq] at hprice
      exact ⟨p, rfl, hprice.1, hprice.2⟩
  · show (r4.district.map (fun d => pyStrip (pyUpper d))).isSome = true
    rw [Option.isSome_map']
    exact hdist

/-- C10 witness: a concrete good row survives `clean_data` (with the ISO
datetime parse as the `pd.to_datetime` model) and satisfies every
invariant. -/
theorem clean_data_invariants_witness :
    (∃ p, sampleTxRow.price = some p ∧ 10000 ≤ p ∧ p ≤ 50000000) ∧
    sampleTxRow.date_of_transfer.isSome = true ∧
    sampleTxRow.postcode.isSome = true ∧
    sampleTxRow.district.isSome = true ∧
    (clean_data parseISODate [sampleRawRow]).countP
        (fun x => x.transaction_id == sampleTxRow.transaction_id) = 1 :=
  clean_data_invariants parseISODate [sampleRawRow] sampleTxRow (by decide)
